import Mathlib

/-!
Shallow embedding of the input subsystem of `slint-backend-linuxfb`
(files `src/input.rs`, `src/input/touch.rs`, `src/input/keyboard.rs`)
together with theorems settling the specification claims.

Modelling conventions:
* Rust `i32`/`usize` values are modelled as `Int`/`Nat`; the one place where an
  `as usize` cast of an `i32` matters (`ABS_MT_SLOT`) is modelled exactly by
  `i32AsUsize` (two's-complement reinterpretation on a 64-bit target).
* Rust `i32` division (truncation towards zero) is `Int.tdiv`.
* `f32` arithmetic in the coordinate mapping and scroll deltas is modelled by
  exact rational arithmetic (`ℚ`) with round-half-away-from-zero, which is the
  semantics of `f32::round`.
* `Instant` timestamps are modelled as `Nat` milliseconds passed in explicitly;
  `start.elapsed()` becomes `now - start`.
-/

namespace LinuxFB

/-- `MAX_SLOTS` from `touch.rs`. -/
def MAX_SLOTS : Nat := 10

/-- `JITTER_THRESHOLD` from `touch.rs`. -/
def JITTER_THRESHOLD : Int := 2

/-- `TAP_DRIFT_THRESHOLD` from `touch.rs`. -/
def TAP_DRIFT_THRESHOLD : Int := 20

/-- `LONG_PRESS_DURATION` from `touch.rs`, in milliseconds. -/
def LONG_PRESS_DURATION : Nat := 600

/-- `SCROLL_SCALE` from `touch.rs` (`f32` constant 2.0, exact in `ℚ`). -/
def SCROLL_SCALE : ℚ := 2

/-- `MOVE_THROTTLE_DURATION` from `input.rs`, in milliseconds. -/
def MOVE_THROTTLE_DURATION : Nat := 8

/-- The value of a Rust `v as usize` cast where `v : i32`, on a 64-bit target:
two's-complement reinterpretation, so negative values become huge. -/
def i32AsUsize (v : Int) : Nat := (v % (2 : Int) ^ 64).toNat

/-- `SlotState` from `touch.rs`: one tracked touch contact. -/
structure SlotState where
  active : Bool := false
  id : Int := 0
  x : Int := 0
  y : Int := 0
  deriving DecidableEq, Repr

/-- `GestureMode` from `touch.rs`. -/
inductive GestureMode where
  | None
  | Pointer
  | RightDrag
  | Scroll
  | WaitRelease
  deriving DecidableEq, Repr

/-- `i_slint_core::api::PhysicalPosition` restricted to the two `i32` fields
used by this backend. -/
structure PhysicalPosition where
  x : Int
  y : Int
  deriving DecidableEq, Repr

/-- `evdev::AbsInfo` restricted to the fields the backend reads. -/
structure AbsInfo where
  minimum : Int
  maximum : Int
  deriving DecidableEq, Repr

/-- The absolute-axis codes matched by `TouchState::process_axis`; every other
code falls into the wildcard arm, represented by `other`. -/
inductive AbsAxisCode where
  | ABS_MT_SLOT
  | ABS_MT_TRACKING_ID
  | ABS_MT_POSITION_X
  | ABS_MT_POSITION_Y
  | ABS_X
  | ABS_Y
  | other (code : Nat)
  deriving DecidableEq, Repr

/-- `TouchState` from `touch.rs`: the slot table plus the gesture state. -/
structure TouchState where
  slots : Fin 10 → SlotState
  current_slot : Nat
  gesture_mode : GestureMode
  gesture_start_time : Option Nat
  initial_centroid : Option PhysicalPosition
  last_centroid : Option PhysicalPosition
  last_reported_pos : Option PhysicalPosition
  max_fingers_down : Nat
  long_press_invalidated : Bool
  deriving DecidableEq

/-- `TouchState::new`. -/
def TouchState.new : TouchState where
  slots := fun _ => {}
  current_slot := 0
  gesture_mode := .None
  gesture_start_time := none
  initial_centroid := none
  last_centroid := none
  last_reported_pos := none
  max_fingers_down := 0
  long_press_invalidated := false

/-- Write one slot of the slot table. -/
def TouchState.setSlot (ts : TouchState) (i : Fin 10) (s : SlotState) : TouchState :=
  { ts with slots := Function.update ts.slots i s }

/-- `TouchState::process_axis` from `touch.rs`. -/
def TouchState.processAxis (ts : TouchState) (code : AbsAxisCode) (value : Int)
    (is_protocol_b : Bool) : TouchState :=
  match code with
  | .ABS_MT_SLOT =>
      if i32AsUsize value < MAX_SLOTS then { ts with current_slot := i32AsUsize value } else ts
  | .ABS_MT_TRACKING_ID =>
      if h : ts.current_slot < 10 then
        let i : Fin 10 := ⟨ts.current_slot, h⟩
        if value = -1 then ts.setSlot i { ts.slots i with active := false }
        else ts.setSlot i { ts.slots i with active := true, id := value }
      else ts
  | .ABS_MT_POSITION_X =>
      if h : ts.current_slot < 10 then
        let i : Fin 10 := ⟨ts.current_slot, h⟩
        let ts' := ts.setSlot i { ts.slots i with x := value }
        if ¬is_protocol_b ∧ ¬(ts.slots i).active then
          ts'.setSlot i { ts'.slots i with active := true }
        else ts'
      else ts
  | .ABS_MT_POSITION_Y =>
      if h : ts.current_slot < 10 then
        let i : Fin 10 := ⟨ts.current_slot, h⟩
        let ts' := ts.setSlot i { ts.slots i with y := value }
        if ¬is_protocol_b ∧ ¬(ts.slots i).active then
          ts'.setSlot i { ts'.slots i with active := true }
        else ts'
      else ts
  | .ABS_X =>
      let ts' := ts.setSlot 0 { ts.slots 0 with x := value }
      if ¬(ts.slots 0).active then ts'.setSlot 0 { ts'.slots 0 with active := true } else ts'
  | .ABS_Y =>
      let ts' := ts.setSlot 0 { ts.slots 0 with y := value }
      if ¬(ts.slots 0).active then ts'.setSlot 0 { ts'.slots 0 with active := true } else ts'
  | .other _ => ts

/-- `TouchState::sync_mt_report` from `touch.rs`. -/
def TouchState.syncMtReport (ts : TouchState) : TouchState :=
  let c := ts.current_slot + 1
  { ts with current_slot := if MAX_SLOTS ≤ c then MAX_SLOTS - 1 else c }

/-- `TouchState::finish_frame_protocol_a` from `touch.rs`: deactivate every slot
at index `current_slot ..` and reset the cursor. -/
def TouchState.finishFrameProtocolA (ts : TouchState) : TouchState :=
  { ts with
    slots := fun i => if ts.current_slot ≤ i.val then { ts.slots i with active := false }
                      else ts.slots i
    current_slot := 0 }

/-- `PointerEventButton` from `i_slint_core` (the variants the backend emits). -/
inductive PointerEventButton where
  | Left
  | Right
  | Middle
  | Back
  | Forward
  deriving DecidableEq, Repr

/-- A Slint key symbol produced by the keyboard normalizer: the named
`key_codes::*` constants of `i_slint_core` that the backend uses. -/
inductive SlintKey where
  | Shift | ShiftR | Control | ControlR | Alt | AltGr | Meta | MetaR | CapsLock
  | Escape | Return | Backspace | Tab | Backtab | Space
  | UpArrow | DownArrow | LeftArrow | RightArrow
  | Delete | Home | End | PageUp | PageDown | Insert
  | SysReq | ScrollLock | Pause | Stop | Menu | Back
  | F1 | F2 | F3 | F4 | F5 | F6 | F7 | F8 | F9 | F10 | F11 | F12
  | F13 | F14 | F15 | F16 | F17 | F18 | F19 | F20 | F21 | F22 | F23 | F24
  deriving DecidableEq, Repr

/-- A `SharedString` value carried by key events: either a plain character
string from the static table or one of the named Slint key constants. The
default (empty) `SharedString` is `txt ""`. -/
inductive KeyText where
  | txt (s : String)
  | key (k : SlintKey)
  deriving DecidableEq, Repr

/-- The `WindowEvent` variants emitted by the backend.  In every emission site
the position is `pointer_pos.to_logical(1.0)`, which is the identity on the
coordinates, so positions are kept as `PhysicalPosition`.  Scroll deltas are
`f32`, modelled as `ℚ`. -/
inductive WindowEvent where
  | PointerMoved (position : PhysicalPosition)
  | PointerPressed (position : PhysicalPosition) (button : PointerEventButton)
  | PointerReleased (position : PhysicalPosition) (button : PointerEventButton)
  | PointerScrolled (position : PhysicalPosition) (delta_x delta_y : ℚ)
  | KeyPressed (text : KeyText)
  | KeyReleased (text : KeyText)
  | KeyPressRepeated (text : KeyText)
  deriving DecidableEq, Repr

/-- Indices of the active slots, in increasing order (`touch.rs` builds
`active_slots` by iterating the slot array in order). -/
def activeSlotIndices (slots : Fin 10 → SlotState) : List (Fin 10) :=
  (List.finRange 10).filter fun i => (slots i).active

/-- `finger_count` in `analyze_touch_gesture`. -/
def fingerCount (slots : Fin 10 → SlotState) : Nat :=
  (activeSlotIndices slots).length

/-- Raw centroid of the active slots (`touch.rs` step 2): component sums
divided by the finger count with Rust `i32` division (truncation), `(0,0)`
when no finger is down. -/
def rawCentroid (slots : Fin 10 → SlotState) : Int × Int :=
  let act := activeSlotIndices slots
  if 0 < act.length then
    let sum := act.foldl (fun acc i => (acc.1 + (slots i).x, acc.2 + (slots i).y)) (0, 0)
    (Int.tdiv sum.1 act.length, Int.tdiv sum.2 act.length)
  else (0, 0)

/-- `f32::round` applied to the exact rational `a / b` with `b > 0`:
round half away from zero.  For `a ≥ 0` this is `⌊(a/b) + 1/2⌋ = (2a+b) fdiv 2b`,
mirrored for negative `a`. -/
def roundHalfAway (a b : Int) : Int :=
  if 0 ≤ a then Int.fdiv (2 * a + b) (2 * b) else -Int.fdiv (-(2 * a) + b) (2 * b)

/-- The `map_coord` closure of `analyze_touch_gesture`: linear rescale of the
raw range to `[0, screen_max]`, falling back to the raw value when no
calibration is known or the range is degenerate.  The `f32` computation
`((val - min) as f32 / range * screen_max as f32).round()` is modelled by its
exact real-arithmetic value `round(((val - min) * screen_max) / range)`.
Note: no clamping is performed here. -/
def mapCoord (val : Int) (info : Option AbsInfo) (screen_max : Nat) : Int :=
  match info with
  | some info =>
      let range := info.maximum - info.minimum
      if 0 < range then
        roundHalfAway ((val - info.minimum) * (screen_max : Int)) range
      else val
  | none => val

/-- The screen-space centroid computed by `analyze_touch_gesture`. -/
def screenCentroid (slots : Fin 10 → SlotState) (abs_x abs_y : Option AbsInfo)
    (screen_width screen_height : Nat) : PhysicalPosition :=
  ⟨mapCoord (rawCentroid slots).1 abs_x screen_width,
   mapCoord (rawCentroid slots).2 abs_y screen_height⟩

/-- The move-debounce test of `analyze_touch_gesture`: the centroid counts as
moved when there is no previously reported position, or when either axis
displacement exceeds `JITTER_THRESHOLD`. -/
def movedSince (last : Option PhysicalPosition) (c : PhysicalPosition) : Bool :=
  match last with
  | some last =>
      decide (JITTER_THRESHOLD < |c.x - last.x|) || decide (JITTER_THRESHOLD < |c.y - last.y|)
  | none => true

/-- Result of `analyze_touch_gesture`: the updated touch state, the two
`&mut` out-parameters (`pointer_pos`, `is_left_pressed`) and the emitted
events in order.  The Rust function returns `Option<Vec<WindowEvent>>` but
every path returns `Some`, so the `Option` layer is dropped. -/
structure AnalyzeResult where
  state : TouchState
  pos : PhysicalPosition
  left : Bool
  events : List WindowEvent
  deriving DecidableEq

/-- `analyze_touch_gesture` from `touch.rs`. `now` is the current time in
milliseconds (`Instant::now()`), used for the gesture start timestamp and the
long-press `elapsed()` test. -/
def analyzeTouchGesture (state₀ : TouchState) (pos₀ : PhysicalPosition) (left₀ : Bool)
    (screen_width screen_height : Nat) (abs_x abs_y : Option AbsInfo) (now : Nat) :
    AnalyzeResult :=
  let finger_count := fingerCount state₀.slots
  let current_centroid := screenCentroid state₀.slots abs_x abs_y screen_width screen_height
  -- step 3: initialise a new gesture on the 0 → >0 transition
  let state₁ :=
    if 0 < finger_count ∧ state₀.gesture_start_time = none then
      { state₀ with
        gesture_start_time := some now
        initial_centroid := some current_centroid
        max_fingers_down := finger_count
        long_press_invalidated := false }
    else state₀
  let state₂ :=
    if 0 < finger_count then
      { state₁ with max_fingers_down := max state₁.max_fingers_down finger_count }
    else state₁
  -- step 4: dispatch, two and more fingers taking priority
  if 2 ≤ finger_count then
    -- scroll mode
    let relLeft : List WindowEvent :=
      if left₀ then [.PointerReleased pos₀ .Left] else []
    let left₁ := if left₀ then false else left₀
    let relRight : List WindowEvent :=
      if state₂.gesture_mode = .RightDrag then [.PointerReleased pos₀ .Right] else []
    let just_entered := state₂.gesture_mode ≠ .Scroll
    let state₃ := { state₂ with gesture_mode := .Scroll }
    let pos₁ := current_centroid
    if just_entered then
      { state := { state₃ with last_centroid := some current_centroid }
        pos := pos₁, left := left₁, events := relLeft ++ relRight }
    else
      match state₃.last_centroid with
      | some last =>
          let dx : ℚ := ((current_centroid.x - last.x : Int) : ℚ)
          let dy : ℚ := ((current_centroid.y - last.y : Int) : ℚ)
          let scroll : List WindowEvent :=
            if 1 / 2 < |dx| ∨ 1 / 2 < |dy| then
              [.PointerScrolled pos₁ (dx * SCROLL_SCALE) (dy * SCROLL_SCALE)]
            else []
          { state := { state₃ with last_centroid := some current_centroid }
            pos := pos₁, left := left₁, events := relLeft ++ relRight ++ scroll }
      | none =>
          { state := { state₃ with last_centroid := some current_centroid }
            pos := pos₁, left := left₁, events := relLeft ++ relRight }
  else if finger_count = 0 then
    -- release / end of gesture
    let rel : List WindowEvent :=
      if state₂.gesture_mode = .RightDrag then [.PointerReleased pos₀ .Right]
      else if left₀ then [.PointerReleased pos₀ .Left]
      else []
    let left₁ := if state₂.gesture_mode = .RightDrag then left₀
      else if left₀ then false else left₀
    { state := { state₂ with
        gesture_mode := .None
        gesture_start_time := none
        last_centroid := none
        last_reported_pos := none
        initial_centroid := none
        max_fingers_down := 0 }
      pos := pos₀, left := left₁, events := rel }
  else
    -- exactly one finger
    let state₃ :=
      if state₂.gesture_mode = .Scroll then { state₂ with gesture_mode := .WaitRelease }
      else state₂
    if state₃.gesture_mode = .WaitRelease then
      { state := state₃, pos := pos₀, left := left₀, events := [] }
    else if state₃.gesture_mode = .RightDrag then
      let moved := movedSince state₃.last_reported_pos current_centroid
      if moved then
        { state := { state₃ with last_reported_pos := some current_centroid }
          pos := current_centroid, left := left₀
          events := [.PointerMoved current_centroid] }
      else
        { state := state₃, pos := pos₀, left := left₀, events := [] }
    else
      -- default mode: left-button logic
      let state₄ := { state₃ with gesture_mode := .Pointer }
      let state₅ :=
        if ¬state₄.long_press_invalidated then
          match state₄.initial_centroid with
          | some start =>
              if TAP_DRIFT_THRESHOLD < |start.x - current_centroid.x| ∨
                  TAP_DRIFT_THRESHOLD < |start.y - current_centroid.y| then
                { state₄ with long_press_invalidated := true }
              else state₄
          | none => state₄
        else state₄
      let moved := movedSince state₅.last_reported_pos current_centroid
      let state₆ :=
        if moved then { state₅ with last_reported_pos := some current_centroid } else state₅
      let pos₁ := if moved then current_centroid else pos₀
      let moveEvs : List WindowEvent := if moved then [.PointerMoved pos₁] else []
      let left₁ := if ¬left₀ then true else left₀
      let pressEvs : List WindowEvent :=
        if ¬left₀ then [.PointerPressed pos₁ .Left] else []
      match state₆.gesture_start_time with
      | some start_time =>
          if ¬state₆.long_press_invalidated ∧ LONG_PRESS_DURATION < now - start_time then
            { state := { state₆ with gesture_mode := .RightDrag }
              pos := pos₁, left := false
              events := moveEvs ++ pressEvs ++
                [.PointerReleased pos₁ .Left, .PointerPressed pos₁ .Right] }
          else
            { state := state₆, pos := pos₁, left := left₁, events := moveEvs ++ pressEvs }
      | none =>
          { state := state₆, pos := pos₁, left := left₁, events := moveEvs ++ pressEvs }

/-- `evdev::KeyCode`: a newtype over the raw 16-bit kernel key code. -/
structure KeyCode where
  code : Nat
  deriving DecidableEq, Repr

namespace KeyCode

/-! The kernel key-code constants (from `input-event-codes.h`) that the
backend names in `keyboard.rs` and `input.rs`. -/

def KEY_ESC : KeyCode := ⟨1⟩
def KEY_1 : KeyCode := ⟨2⟩
def KEY_2 : KeyCode := ⟨3⟩
def KEY_3 : KeyCode := ⟨4⟩
def KEY_4 : KeyCode := ⟨5⟩
def KEY_5 : KeyCode := ⟨6⟩
def KEY_6 : KeyCode := ⟨7⟩
def KEY_7 : KeyCode := ⟨8⟩
def KEY_8 : KeyCode := ⟨9⟩
def KEY_9 : KeyCode := ⟨10⟩
def KEY_0 : KeyCode := ⟨11⟩
def KEY_MINUS : KeyCode := ⟨12⟩
def KEY_EQUAL : KeyCode := ⟨13⟩
def KEY_BACKSPACE : KeyCode := ⟨14⟩
def KEY_TAB : KeyCode := ⟨15⟩
def KEY_Q : KeyCode := ⟨16⟩
def KEY_W : KeyCode := ⟨17⟩
def KEY_E : KeyCode := ⟨18⟩
def KEY_R : KeyCode := ⟨19⟩
def KEY_T : KeyCode := ⟨20⟩
def KEY_Y : KeyCode := ⟨21⟩
def KEY_U : KeyCode := ⟨22⟩
def KEY_I : KeyCode := ⟨23⟩
def KEY_O : KeyCode := ⟨24⟩
def KEY_P : KeyCode := ⟨25⟩
def KEY_LEFTBRACE : KeyCode := ⟨26⟩
def KEY_RIGHTBRACE : KeyCode := ⟨27⟩
def KEY_ENTER : KeyCode := ⟨28⟩
def KEY_LEFTCTRL : KeyCode := ⟨29⟩
def KEY_A : KeyCode := ⟨30⟩
def KEY_S : KeyCode := ⟨31⟩
def KEY_D : KeyCode := ⟨32⟩
def KEY_F : KeyCode := ⟨33⟩
def KEY_G : KeyCode := ⟨34⟩
def KEY_H : KeyCode := ⟨35⟩
def KEY_J : KeyCode := ⟨36⟩
def KEY_K : KeyCode := ⟨37⟩
def KEY_L : KeyCode := ⟨38⟩
def KEY_SEMICOLON : KeyCode := ⟨39⟩
def KEY_APOSTROPHE : KeyCode := ⟨40⟩
def KEY_GRAVE : KeyCode := ⟨41⟩
def KEY_LEFTSHIFT : KeyCode := ⟨42⟩
def KEY_BACKSLASH : KeyCode := ⟨43⟩
def KEY_Z : KeyCode := ⟨44⟩
def KEY_X : KeyCode := ⟨45⟩
def KEY_C : KeyCode := ⟨46⟩
def KEY_V : KeyCode := ⟨47⟩
def KEY_B : KeyCode := ⟨48⟩
def KEY_N : KeyCode := ⟨49⟩
def KEY_M : KeyCode := ⟨50⟩
def KEY_COMMA : KeyCode := ⟨51⟩
def KEY_DOT : KeyCode := ⟨52⟩
def KEY_SLASH : KeyCode := ⟨53⟩
def KEY_RIGHTSHIFT : KeyCode := ⟨54⟩
def KEY_LEFTALT : KeyCode := ⟨56⟩
def KEY_SPACE : KeyCode := ⟨57⟩
def KEY_CAPSLOCK : KeyCode := ⟨58⟩
def KEY_F1 : KeyCode := ⟨59⟩
def KEY_F2 : KeyCode := ⟨60⟩
def KEY_F3 : KeyCode := ⟨61⟩
def KEY_F4 : KeyCode := ⟨62⟩
def KEY_F5 : KeyCode := ⟨63⟩
def KEY_F6 : KeyCode := ⟨64⟩
def KEY_F7 : KeyCode := ⟨65⟩
def KEY_F8 : KeyCode := ⟨66⟩
def KEY_F9 : KeyCode := ⟨67⟩
def KEY_F10 : KeyCode := ⟨68⟩
def KEY_SCROLLLOCK : KeyCode := ⟨70⟩
def KEY_KPMINUS : KeyCode := ⟨74⟩
def KEY_KPDOT : KeyCode := ⟨83⟩
def KEY_F11 : KeyCode := ⟨87⟩
def KEY_F12 : KeyCode := ⟨88⟩
def KEY_KPENTER : KeyCode := ⟨96⟩
def KEY_RIGHTCTRL : KeyCode := ⟨97⟩
def KEY_KPSLASH : KeyCode := ⟨98⟩
def KEY_SYSRQ : KeyCode := ⟨99⟩
def KEY_RIGHTALT : KeyCode := ⟨100⟩
def KEY_HOME : KeyCode := ⟨102⟩
def KEY_UP : KeyCode := ⟨103⟩
def KEY_PAGEUP : KeyCode := ⟨104⟩
def KEY_LEFT : KeyCode := ⟨105⟩
def KEY_RIGHT : KeyCode := ⟨106⟩
def KEY_END : KeyCode := ⟨107⟩
def KEY_DOWN : KeyCode := ⟨108⟩
def KEY_PAGEDOWN : KeyCode := ⟨109⟩
def KEY_INSERT : KeyCode := ⟨110⟩
def KEY_DELETE : KeyCode := ⟨111⟩
def KEY_KPEQUAL : KeyCode := ⟨117⟩
def KEY_PAUSE : KeyCode := ⟨119⟩
def KEY_KPCOMMA : KeyCode := ⟨121⟩
def KEY_LEFTMETA : KeyCode := ⟨125⟩
def KEY_RIGHTMETA : KeyCode := ⟨126⟩
def KEY_STOP : KeyCode := ⟨128⟩
def KEY_MENU : KeyCode := ⟨139⟩
def KEY_BACK : KeyCode := ⟨158⟩
def KEY_F13 : KeyCode := ⟨183⟩
def KEY_F14 : KeyCode := ⟨184⟩
def KEY_F15 : KeyCode := ⟨185⟩
def KEY_F16 : KeyCode := ⟨186⟩
def KEY_F17 : KeyCode := ⟨187⟩
def KEY_F18 : KeyCode := ⟨188⟩
def KEY_F19 : KeyCode := ⟨189⟩
def KEY_F20 : KeyCode := ⟨190⟩
def KEY_F21 : KeyCode := ⟨191⟩
def KEY_F22 : KeyCode := ⟨192⟩
def KEY_F23 : KeyCode := ⟨193⟩
def KEY_F24 : KeyCode := ⟨194⟩
def BTN_LEFT : KeyCode := ⟨272⟩
def BTN_RIGHT : KeyCode := ⟨273⟩
def BTN_MIDDLE : KeyCode := ⟨274⟩
def BTN_SIDE : KeyCode := ⟨275⟩
def BTN_EXTRA : KeyCode := ⟨276⟩
def BTN_TOUCH : KeyCode := ⟨330⟩

end KeyCode

/-- State of the simple (non-XKB) `KeyboardHandler` from `keyboard.rs`:
it tracks only the Shift modifier. -/
structure KeyboardState where
  shift_pressed : Bool
  deriving DecidableEq, Repr

/-- `impl_simple::KeyboardHandler::new` (the logging aside). -/
def KeyboardState.new : KeyboardState := ⟨false⟩

/-- Character choice `if self.shift_pressed { a } else { b }` from the static
table. -/
def shifted (shift : Bool) (a b : String) : Option KeyText :=
  some (.txt (if shift then a else b))

/-- `impl_simple::KeyboardHandler::map_key_code` from `keyboard.rs`:
the fixed US-QWERTY table with Shift variants; named keys map to Slint key
constants; everything else maps to `none`. -/
def mapKeyCode (shift : Bool) (code : KeyCode) : Option KeyText :=
  if code = .KEY_LEFTSHIFT then some (.key .Shift)
  else if code = .KEY_RIGHTSHIFT then some (.key .ShiftR)
  else if code = .KEY_LEFTCTRL then some (.key .Control)
  else if code = .KEY_RIGHTCTRL then some (.key .ControlR)
  else if code = .KEY_LEFTALT then some (.key .Alt)
  else if code = .KEY_RIGHTALT then some (.key .AltGr)
  else if code = .KEY_LEFTMETA then some (.key .Meta)
  else if code = .KEY_RIGHTMETA then some (.key .MetaR)
  else if code = .KEY_CAPSLOCK then some (.key .CapsLock)
  else if code = .KEY_Q then shifted shift "Q" "q"
  else if code = .KEY_W then shifted shift "W" "w"
  else if code = .KEY_E then shifted shift "E" "e"
  else if code = .KEY_R then shifted shift "R" "r"
  else if code = .KEY_T then shifted shift "T" "t"
  else if code = .KEY_Y then shifted shift "Y" "y"
  else if code = .KEY_U then shifted shift "U" "u"
  else if code = .KEY_I then shifted shift "I" "i"
  else if code = .KEY_O then shifted shift "O" "o"
  else if code = .KEY_P then shifted shift "P" "p"
  else if code = .KEY_A then shifted shift "A" "a"
  else if code = .KEY_S then shifted shift "S" "s"
  else if code = .KEY_D then shifted shift "D" "d"
  else if code = .KEY_F then shifted shift "F" "f"
  else if code = .KEY_G then shifted shift "G" "g"
  else if code = .KEY_H then shifted shift "H" "h"
  else if code = .KEY_J then shifted shift "J" "j"
  else if code = .KEY_K then shifted shift "K" "k"
  else if code = .KEY_L then shifted shift "L" "l"
  else if code = .KEY_Z then shifted shift "Z" "z"
  else if code = .KEY_X then shifted shift "X" "x"
  else if code = .KEY_C then shifted shift "C" "c"
  else if code = .KEY_V then shifted shift "V" "v"
  else if code = .KEY_B then shifted shift "B" "b"
  else if code = .KEY_N then shifted shift "N" "n"
  else if code = .KEY_M then shifted shift "M" "m"
  else if code = .KEY_1 then shifted shift "!" "1"
  else if code = .KEY_2 then shifted shift "@" "2"
  else if code = .KEY_3 then shifted shift "#" "3"
  else if code = .KEY_4 then shifted shift "$" "4"
  else if code = .KEY_5 then shifted shift "%" "5"
  else if code = .KEY_6 then shifted shift "^" "6"
  else if code = .KEY_7 then shifted shift "&" "7"
  else if code = .KEY_8 then shifted shift "*" "8"
  else if code = .KEY_9 then shifted shift "(" "9"
  else if code = .KEY_0 then shifted shift ")" "0"
  else if code = .KEY_MINUS ∨ code = .KEY_KPMINUS then shifted shift "_" "-"
  else if code = .KEY_EQUAL ∨ code = .KEY_KPEQUAL then shifted shift "+" "="
  else if code = .KEY_LEFTBRACE then shifted shift "\x7b" "["
  else if code = .KEY_RIGHTBRACE then shifted shift "\x7d" "]"
  else if code = .KEY_BACKSLASH then shifted shift "|" "\\"
  else if code = .KEY_SEMICOLON then shifted shift ":" ";"
  else if code = .KEY_APOSTROPHE then shifted shift "\"" "\x27"
  else if code = .KEY_COMMA ∨ code = .KEY_KPCOMMA then shifted shift "<" ","
  else if code = .KEY_DOT ∨ code = .KEY_KPDOT then shifted shift ">" "."
  else if code = .KEY_SLASH ∨ code = .KEY_KPSLASH then shifted shift "?" "/"
  else if code = .KEY_GRAVE then shifted shift "~" "\x60"
  else if code = .KEY_ESC then some (.key .Escape)
  else if code = .KEY_ENTER ∨ code = .KEY_KPENTER then some (.key .Return)
  else if code = .KEY_BACKSPACE then some (.key .Backspace)
  else if code = .KEY_TAB then
    if shift then some (.key .Backtab) else some (.key .Tab)
  else if code = .KEY_SPACE then some (.key .Space)
  else if code = .KEY_UP then some (.key .UpArrow)
  else if code = .KEY_DOWN then some (.key .DownArrow)
  else if code = .KEY_LEFT then some (.key .LeftArrow)
  else if code = .KEY_RIGHT then some (.key .RightArrow)
  else if code = .KEY_F1 then some (.key .F1)
  else if code = .KEY_F2 then some (.key .F2)
  else if code = .KEY_F3 then some (.key .F3)
  else if code = .KEY_F4 then some (.key .F4)
  else if code = .KEY_F5 then some (.key .F5)
  else if code = .KEY_F6 then some (.key .F6)
  else if code = .KEY_F7 then some (.key .F7)
  else if code = .KEY_F8 then some (.key .F8)
  else if code = .KEY_F9 then some (.key .F9)
  else if code = .KEY_F10 then some (.key .F10)
  else if code = .KEY_F11 then some (.key .F11)
  else if code = .KEY_F12 then some (.key .F12)
  else if code = .KEY_F13 then some (.key .F13)
  else if code = .KEY_F14 then some (.key .F14)
  else if code = .KEY_F15 then some (.key .F15)
  else if code = .KEY_F16 then some (.key .F16)
  else if code = .KEY_F17 then some (.key .F17)
  else if code = .KEY_F18 then some (.key .F18)
  else if code = .KEY_F19 then some (.key .F19)
  else if code = .KEY_F20 then some (.key .F20)
  else if code = .KEY_F21 then some (.key .F21)
  else if code = .KEY_F22 then some (.key .F22)
  else if code = .KEY_F23 then some (.key .F23)
  else if code = .KEY_F24 then some (.key .F24)
  else if code = .KEY_DELETE then some (.key .Delete)
  else if code = .KEY_HOME then some (.key .Home)
  else if code = .KEY_END then some (.key .End)
  else if code = .KEY_PAGEUP then some (.key .PageUp)
  else if code = .KEY_PAGEDOWN then some (.key .PageDown)
  else if code = .KEY_INSERT then some (.key .Insert)
  else if code = .KEY_SYSRQ then some (.key .SysReq)
  else if code = .KEY_SCROLLLOCK then some (.key .ScrollLock)
  else if code = .KEY_PAUSE then some (.key .Pause)
  else if code = .KEY_STOP then some (.key .Stop)
  else if code = .KEY_MENU then some (.key .Menu)
  else if code = .KEY_BACK then some (.key .Back)
  else none

/-- `impl_simple::KeyboardHandler::handle_key_event` from `keyboard.rs`:
update the Shift state, look the key up in the static table (empty text when
unmapped), and emit Released/Pressed/PressRepeated for value 0/1/2, nothing
otherwise. -/
def handleKeyEvent (st : KeyboardState) (code : KeyCode) (value : Int) :
    KeyboardState × Option WindowEvent :=
  let st' :=
    if value = 1 then
      if code = .KEY_LEFTSHIFT ∨ code = .KEY_RIGHTSHIFT then
        { st with shift_pressed := true }
      else st
    else if value = 0 then
      if code = .KEY_LEFTSHIFT ∨ code = .KEY_RIGHTSHIFT then
        { st with shift_pressed := false }
      else st
    else st
  let text := (mapKeyCode st'.shift_pressed code).getD (.txt "")
  let ev : Option WindowEvent :=
    if value = 0 then some (.KeyReleased text)
    else if value = 1 then some (.KeyPressed text)
    else if value = 2 then some (.KeyPressRepeated text)
    else none
  (st', ev)

/-- The relative-axis codes matched by `process_device_events`; every other
code falls into the wildcard arm, represented by `other`. -/
inductive RelAxisCode where
  | REL_X
  | REL_Y
  | REL_WHEEL
  | REL_HWHEEL
  | other (code : Nat)
  deriving DecidableEq, Repr

/-- The synchronization codes matched by `process_device_events`; every other
code falls into the wildcard arm, represented by `other`. -/
inductive SyncCode where
  | SYN_MT_REPORT
  | SYN_REPORT
  | other (code : Nat)
  deriving DecidableEq, Repr

/-- `evdev::EventSummary` restricted to the shapes `process_device_events`
matches on; all other summaries fall into its wildcard arm. -/
inductive EventSum where
  | absoluteAxis (code : AbsAxisCode) (value : Int)
  | relativeAxis (code : RelAxisCode) (value : Int)
  | key (code : KeyCode) (value : Int)
  | synchronization (code : SyncCode) (value : Int)
  | otherEvent
  deriving DecidableEq, Repr

/-- `ManagedDevice` from `input.rs`, restricted to the fields read during
event processing (the path and the OS handle play no role there). -/
structure ManagedDevice where
  abs_x_info : Option AbsInfo
  abs_y_info : Option AbsInfo
  is_protocol_b : Bool
  touch : TouchState
  deriving DecidableEq

/-- `GlobalInputState` from `input.rs`. `last_move_time` is the move-throttle
timestamp in milliseconds. -/
structure GlobalInputState where
  pointer_pos : PhysicalPosition
  is_left_pressed : Bool
  screen_width : Nat
  screen_height : Nat
  keyboard : KeyboardState
  last_move_time : Nat
  deriving DecidableEq

/-- `map_key_to_pointer_button` from `input.rs`. -/
def mapKeyToPointerButton (key : KeyCode) : Option PointerEventButton :=
  if key = .BTN_LEFT ∨ key = .BTN_TOUCH then some .Left
  else if key = .BTN_RIGHT then some .Right
  else if key = .BTN_MIDDLE then some .Middle
  else if key = .BTN_SIDE then some .Back
  else if key = .BTN_EXTRA then some .Forward
  else none

/-- `GlobalInputState::should_emit_move`: allow a move event when at least
`MOVE_THROTTLE_DURATION` elapsed since the last one, updating the timestamp. -/
def shouldEmitMove (gs : GlobalInputState) (now : Nat) : GlobalInputState × Bool :=
  if MOVE_THROTTLE_DURATION ≤ now - gs.last_move_time then
    ({ gs with last_move_time := now }, true)
  else (gs, false)

/-- Rust `i32::clamp`. -/
def clampInt (v lo hi : Int) : Int := max lo (min hi v)

/-- The move-throttle filter applied to the gesture recognizer's output in the
`SYN_REPORT` arm of `process_device_events`: `PointerMoved` events pass only
when `should_emit_move` allows them, all other events always pass. -/
def throttleMoves (gs : GlobalInputState) (now : Nat) :
    List WindowEvent → GlobalInputState × List WindowEvent
  | [] => (gs, [])
  | e :: rest =>
      match e with
      | .PointerMoved p =>
          let (gs₁, emit) := shouldEmitMove gs now
          let (gs₂, tail) := throttleMoves gs₁ now rest
          (gs₂, if emit then .PointerMoved p :: tail else tail)
      | e =>
          let (gs₂, tail) := throttleMoves gs now rest
          (gs₂, e :: tail)

/-- Accumulator of the event loop inside `process_device_events`: the global
state, the device, the two local flags/counters, and the output collected so
far. -/
structure PdeAcc where
  gs : GlobalInputState
  dev : ManagedDevice
  sync_needed : Bool
  wheel_dx : Int
  wheel_dy : Int
  output : List WindowEvent
  deriving DecidableEq

/-- One iteration of the event loop of `GlobalInputState::process_device_events`
(`input.rs`), processing a single `InputEvent`. -/
def pdeStep (now : Nat) (acc : PdeAcc) (ev : EventSum) : PdeAcc :=
  match ev with
  | .absoluteAxis code value =>
      { acc with dev :=
          { acc.dev with touch := acc.dev.touch.processAxis code value acc.dev.is_protocol_b } }
  | .relativeAxis .REL_X value =>
      { acc with
        gs := { acc.gs with pointer_pos :=
          { acc.gs.pointer_pos with
            x := clampInt (acc.gs.pointer_pos.x + value) 0 ((acc.gs.screen_width : Int) - 1) } }
        sync_needed := true }
  | .relativeAxis .REL_Y value =>
      { acc with
        gs := { acc.gs with pointer_pos :=
          { acc.gs.pointer_pos with
            y := clampInt (acc.gs.pointer_pos.y + value) 0 ((acc.gs.screen_height : Int) - 1) } }
        sync_needed := true }
  | .relativeAxis .REL_WHEEL value => { acc with wheel_dy := acc.wheel_dy + value }
  | .relativeAxis .REL_HWHEEL value => { acc with wheel_dx := acc.wheel_dx + value }
  | .relativeAxis (.other _) _ => acc
  | .key key value =>
      match mapKeyToPointerButton key with
      | some btn =>
          if acc.dev.abs_x_info = none then
            if value = 1 then
              { acc with output :=
                  acc.output ++ [.PointerPressed acc.gs.pointer_pos btn] }
            else
              { acc with output :=
                  acc.output ++ [.PointerReleased acc.gs.pointer_pos btn] }
          else acc
      | none =>
          let (kb, e) := handleKeyEvent acc.gs.keyboard key value
          { acc with
            gs := { acc.gs with keyboard := kb }
            output := acc.output ++ e.toList }
  | .synchronization .SYN_MT_REPORT _ =>
      if ¬acc.dev.is_protocol_b then
        { acc with dev := { acc.dev with touch := acc.dev.touch.syncMtReport } }
      else acc
  | .synchronization .SYN_REPORT _ =>
      let acc₁ :=
        if ¬acc.dev.is_protocol_b then
          { acc with dev := { acc.dev with touch := acc.dev.touch.finishFrameProtocolA } }
        else acc
      let acc₂ :=
        if acc₁.dev.abs_x_info.isSome then
          let r := analyzeTouchGesture acc₁.dev.touch acc₁.gs.pointer_pos
            acc₁.gs.is_left_pressed acc₁.gs.screen_width acc₁.gs.screen_height
            acc₁.dev.abs_x_info acc₁.dev.abs_y_info now
          let gs₁ := { acc₁.gs with pointer_pos := r.pos, is_left_pressed := r.left }
          let (gs₂, filtered) := throttleMoves gs₁ now r.events
          { acc₁ with
            gs := gs₂
            dev := { acc₁.dev with touch := r.state }
            output := acc₁.output ++ filtered }
        else if acc₁.sync_needed then
          let (gs₁, emit) := shouldEmitMove acc₁.gs now
          { acc₁ with
            gs := gs₁
            output := acc₁.output ++
              (if emit then [.PointerMoved gs₁.pointer_pos] else [])
            sync_needed := false }
        else acc₁
      if acc₂.wheel_dx ≠ 0 ∨ acc₂.wheel_dy ≠ 0 then
        { acc₂ with
          output := acc₂.output ++
            [.PointerScrolled acc₂.gs.pointer_pos
              ((acc₂.wheel_dx : ℚ) * 20) ((acc₂.wheel_dy : ℚ) * 20)]
          wheel_dx := 0
          wheel_dy := 0 }
      else acc₂
  | .synchronization (.other _) _ => acc
  | .otherEvent => acc

/-- `GlobalInputState::process_device_events` from `input.rs`: fold the event
loop over the device's fetched events and return the updated global state, the
updated device and the emitted window events. -/
def processDeviceEvents (gs : GlobalInputState) (dev : ManagedDevice)
    (events : List EventSum) (now : Nat) :
    GlobalInputState × ManagedDevice × List WindowEvent :=
  let acc := events.foldl (pdeStep now)
    { gs := gs, dev := dev, sync_needed := false, wheel_dx := 0, wheel_dy := 0, output := [] }
  (acc.gs, acc.dev, acc.output)

/-- Outcome of `device.fetch_events()` for one device in one `poll()` cycle:
a batch of events, a `WouldBlock` error, or any other read error. -/
inductive ReadResult where
  | ok (events : List EventSum)
  | wouldBlock
  | err
  deriving DecidableEq

/-- The device loop of `InputManager::poll` (`input.rs`): iterate over the
registry with `enumerate` starting at index `i`, turn `WouldBlock` and fatal
errors into an empty batch, record the indices of fatally failed devices, and
process non-empty batches.  Returns the final global state, the devices with
their updated per-device state (still all present, in order), the recorded
removal indices (in increasing order) and the accumulated events. -/
def pollLoop (now : Nat) :
    GlobalInputState → List (ManagedDevice × ReadResult) → Nat →
    GlobalInputState × List ManagedDevice × List Nat × List WindowEvent
  | gs, [], _ => (gs, [], [], [])
  | gs, (dev, res) :: rest, i =>
      let events : List EventSum :=
        match res with
        | .ok evs => evs
        | .wouldBlock => []
        | .err => []
      let removeHere : List Nat := match res with | .err => [i] | _ => []
      let step :=
        if events ≠ [] then processDeviceEvents gs dev events now else (gs, dev, [])
      let next := pollLoop now step.1 rest (i + 1)
      (next.1, step.2.1 :: next.2.1, removeHere ++ next.2.2.1, step.2.2 ++ next.2.2.2)

/-- The removal pass after the device loop of `poll`:
`for &i in indices_to_remove.iter().rev() { self.devices.remove(i); }`. -/
def applyRemovals (devs : List ManagedDevice) (idxs : List Nat) : List ManagedDevice :=
  idxs.reverse.foldl (fun ds i => ds.eraseIdx i) devs

/-- The per-cycle device handling of `InputManager::poll`, with each device's
read outcome supplied as data: run the device loop, then apply the deferred
removals.  Returns the global state, the retained devices and the events. -/
def pollModel (now : Nat) (gs : GlobalInputState)
    (devs : List (ManagedDevice × ReadResult)) :
    GlobalInputState × List ManagedDevice × List WindowEvent :=
  let r := pollLoop now gs devs 0
  (r.1, applyRemovals r.2.1 r.2.2.1, r.2.2.2)

/-- One frame of a touch gesture as the recognizer sees it: the slot table the
decoder produced for this frame-sync, and the frame's timestamp (ms). -/
structure GestureFrame where
  slots : Fin 10 → SlotState
  now : Nat

/-- Run `analyze_touch_gesture` for one frame: the decoder has rewritten the
slot table, the gesture fields carry over from the previous frame; events are
accumulated across frames. -/
def gestureStep (screen_width screen_height : Nat) (abs_x abs_y : Option AbsInfo)
    (acc : TouchState × PhysicalPosition × Bool × List WindowEvent) (f : GestureFrame) :
    TouchState × PhysicalPosition × Bool × List WindowEvent :=
  let r := analyzeTouchGesture { acc.1 with slots := f.slots } acc.2.1 acc.2.2.1
    screen_width screen_height abs_x abs_y f.now
  (r.state, r.pos, r.left, acc.2.2.2 ++ r.events)

/-- Run the gesture recognizer over a sequence of frames. -/
def runGesture (screen_width screen_height : Nat) (abs_x abs_y : Option AbsInfo)
    (ts : TouchState) (pos : PhysicalPosition) (left : Bool)
    (frames : List GestureFrame) : TouchState × PhysicalPosition × Bool × List WindowEvent :=
  frames.foldl (gestureStep screen_width screen_height abs_x abs_y) (ts, pos, left, [])

/-- Recognizer for `PointerPressed(Left)` events. -/
def isPressedLeft : WindowEvent → Bool
  | .PointerPressed _ .Left => true
  | _ => false

/-- Recognizer for `PointerReleased(Left)` events. -/
def isReleasedLeft : WindowEvent → Bool
  | .PointerReleased _ .Left => true
  | _ => false

/-- Recognizer for Right-button events (pressed or released). -/
def isRightButton : WindowEvent → Bool
  | .PointerPressed _ .Right => true
  | .PointerReleased _ .Right => true
  | _ => false

/-- Concrete two-finger slot table used as a witness input. -/
def twoFingerSlots : Fin 10 → SlotState := fun i =>
  if i.val < 2 then { active := true, id := 0, x := 10, y := 10 } else {}

/-- Concrete touch state with two active fingers used as a witness input. -/
def twoFingerState : TouchState := { TouchState.new with slots := twoFingerSlots }

/-- Concrete touchscreen device (calibration present) used as a witness input. -/
def touchDevice : ManagedDevice :=
  { abs_x_info := some ⟨0, 4095⟩, abs_y_info := some ⟨0, 4095⟩,
    is_protocol_b := true, touch := TouchState.new }

/-- Concrete global input state used as a witness input. -/
def initialGlobalState : GlobalInputState :=
  { pointer_pos := ⟨400, 240⟩, is_left_pressed := false, screen_width := 800,
    screen_height := 480, keyboard := ⟨false⟩, last_move_time := 0 }

/-- Concrete one-finger slot table used as a witness input. -/
def tapSlots : Fin 10 → SlotState := fun i =>
  if i = 0 then { active := true, id := 0, x := 50, y := 50 } else {}

/-- Concrete empty slot table used as a witness input. -/
def emptySlots : Fin 10 → SlotState := fun _ => {}

/-! ## Theorems settling the claims -/

/-- Claim C1, counterexample: in protocol-B decoding an `ABS_MT_POSITION_X`
event on the (inactive) current slot updates the coordinate but does NOT
activate the slot, contradicting the claimed implicit activation: from the
initial state, after `process_axis(ABS_MT_POSITION_X, 100, is_protocol_b = true)`
slot 0 holds `x = 100` yet is still inactive. -/
theorem C1_counterexample :
    ((TouchState.new.processAxis .ABS_MT_POSITION_X 100 true).slots 0).x = 100 ∧
      ((TouchState.new.processAxis .ABS_MT_POSITION_X 100 true).slots 0).active = false := by
  decide

/-- Claim C1 (amended): for every `ABS_MT_POSITION_X`/`Y` event processed with
`is_protocol_b = true`, the coordinate of the current slot is updated and its
active flag is left unchanged; the implicit activation of an inactive slot
happens only when `is_protocol_b = false`. -/
theorem C1_position_update_amended (ts : TouchState) (v : Int) (h : ts.current_slot < 10) :
    ((ts.processAxis .ABS_MT_POSITION_X v true).slots ⟨ts.current_slot, h⟩ =
        { ts.slots ⟨ts.current_slot, h⟩ with x := v }) ∧
    ((ts.processAxis .ABS_MT_POSITION_Y v true).slots ⟨ts.current_slot, h⟩ =
        { ts.slots ⟨ts.current_slot, h⟩ with y := v }) ∧
    (¬(ts.slots ⟨ts.current_slot, h⟩).active →
      (ts.processAxis .ABS_MT_POSITION_X v false).slots ⟨ts.current_slot, h⟩ =
        { ts.slots ⟨ts.current_slot, h⟩ with x := v, active := true }) := by
  refine ⟨?_, ?_, ?_⟩
  · simp [TouchState.processAxis, TouchState.setSlot, h]
  · simp [TouchState.processAxis, TouchState.setSlot, h]
  · intro ha
    simp [TouchState.processAxis, TouchState.setSlot, h, ha]

/-- Claim C1 (amended), witness at a concrete input. -/
theorem C1_position_update_amended_witness :
    (TouchState.new.processAxis .ABS_MT_POSITION_X 7 true).slots ⟨0, by decide⟩ =
      { TouchState.new.slots ⟨0, by decide⟩ with x := 7 } :=
  (C1_position_update_amended TouchState.new 7 (by decide)).1

/-- Claim C2, counterexample: the static-table strategy does NOT return `None`
for an unmapped code; for raw code 71 (`KEY_KP7`, not in the table and not a
named key) and value 1 it returns a `KeyPressed` event with empty text. -/
theorem C2_counterexample :
    (handleKeyEvent ⟨false⟩ ⟨71⟩ 1).2 = some (.KeyPressed (.txt "")) ∧
      (handleKeyEvent ⟨false⟩ ⟨71⟩ 1).2 ≠ none := by
  decide

/-- Claim C2 (amended): for every raw key code that is not in the fixed
US-QWERTY table and is not a named key (so `map_key_code` returns `None` under
either Shift state), `handle_key_event` still returns an event for each value
in {0, 1, 2} — `KeyReleased`/`KeyPressed`/`KeyPressRepeated` with empty text —
and returns `None` only for values outside {0, 1, 2}. -/
theorem C2_unmapped_key_amended (code : KeyCode) (v : Int) (st : KeyboardState)
    (h : ∀ b, mapKeyCode b code = none) :
    (handleKeyEvent st code v).2 =
      (if v = 0 then some (.KeyReleased (.txt ""))
       else if v = 1 then some (.KeyPressed (.txt ""))
       else if v = 2 then some (.KeyPressRepeated (.txt ""))
       else none) := by
  simp [handleKeyEvent, h]

/-- Claim C2 (amended), witness at a concrete input. -/
theorem C2_unmapped_key_amended_witness :
    (handleKeyEvent ⟨false⟩ ⟨71⟩ 2).2 =
      (if (2 : Int) = 0 then some (.KeyReleased (.txt ""))
       else if (2 : Int) = 1 then some (.KeyPressed (.txt ""))
       else if (2 : Int) = 2 then some (.KeyPressRepeated (.txt ""))
       else none) :=
  C2_unmapped_key_amended ⟨71⟩ 2 ⟨false⟩ (by decide)

/-- Claim C3, counterexample: the pointer position produced by
`analyze_touch_gesture` is NOT clamped to the screen bounds: with calibration
0..4095 and an 800x480 screen, a single active touch at raw (8190, 8190)
yields pointer x = 1600, outside [0, 800). -/
theorem C3_counterexample :
    (analyzeTouchGesture
        { TouchState.new with
          slots := fun i =>
            if i = 0 then { active := true, id := 0, x := 8190, y := 8190 } else {} }
        ⟨0, 0⟩ false 800 480 (some ⟨0, 4095⟩) (some ⟨0, 4095⟩) 0).pos.x = 1600 ∧
      ¬((analyzeTouchGesture
        { TouchState.new with
          slots := fun i =>
            if i = 0 then { active := true, id := 0, x := 8190, y := 8190 } else {} }
        ⟨0, 0⟩ false 800 480 (some ⟨0, 4095⟩) (some ⟨0, 4095⟩) 0).pos.x < 800) := by
  decide

/-- Pointer position of a 1-finger frame in Scroll or WaitRelease mode: the
frame emits nothing and leaves the pointer unchanged. -/
theorem pos_one_finger_waitrelease (ts : TouchState) (pos : PhysicalPosition)
    (left : Bool) (w h : Nat) (ax ay : Option AbsInfo) (now : Nat)
    (hf : fingerCount ts.slots = 1)
    (hgm : ts.gesture_mode = .Scroll ∨ ts.gesture_mode = .WaitRelease) :
    (analyzeTouchGesture ts pos left w h ax ay now).pos = pos := by
  obtain ⟨sl, cur, gm, gst, ic, lc, lrp, mfd, lpi⟩ := ts
  simp only at hf hgm
  rcases hgm with h | h <;> subst h <;> cases gst <;>
    simp [analyzeTouchGesture, hf]

/-- Pointer position of a 1-finger frame in RightDrag mode: unchanged when
jitter-debounced, otherwise the mapped centroid. -/
theorem pos_one_finger_rightdrag (ts : TouchState) (pos : PhysicalPosition)
    (left : Bool) (w h : Nat) (ax ay : Option AbsInfo) (now : Nat)
    (hf : fingerCount ts.slots = 1) (hgm : ts.gesture_mode = .RightDrag) :
    (analyzeTouchGesture ts pos left w h ax ay now).pos = pos ∨
      (analyzeTouchGesture ts pos left w h ax ay now).pos =
        screenCentroid ts.slots ax ay w h := by
  obtain ⟨sl, cur, gm, gst, ic, lc, lrp, mfd, lpi⟩ := ts
  simp only at hf hgm
  subst hgm
  cases hmv : movedSince lrp (screenCentroid sl ax ay w h) <;> cases gst <;>
    simp [analyzeTouchGesture, hf, hmv]

set_option maxHeartbeats 4000000 in
/-- Pointer position of a 1-finger frame in None or Pointer mode: unchanged
when jitter-debounced, otherwise the mapped centroid. -/
theorem pos_one_finger_default (ts : TouchState) (pos : PhysicalPosition)
    (left : Bool) (w h : Nat) (ax ay : Option AbsInfo) (now : Nat)
    (hf : fingerCount ts.slots = 1)
    (hgm : ts.gesture_mode = .None ∨ ts.gesture_mode = .Pointer) :
    (analyzeTouchGesture ts pos left w h ax ay now).pos = pos ∨
      (analyzeTouchGesture ts pos left w h ax ay now).pos =
        screenCentroid ts.slots ax ay w h := by
  obtain ⟨sl, cur, gm, gst, ic, lc, lrp, mfd, lpi⟩ := ts
  simp only at hf hgm
  have htd0 : ¬(TAP_DRIFT_THRESHOLD < (0 : Int)) := by decide
  have hlp0 : ¬(LONG_PRESS_DURATION < 0) := by decide
  rcases hgm with h | h <;> subst h <;>
    (cases hmv : movedSince lrp (screenCentroid sl ax ay w h) <;>
     cases lpi <;> cases ic <;> cases gst <;>
       first
       | (simp [analyzeTouchGesture, hf, hmv, htd0, hlp0]
          done)
       | (rename_i t
          by_cases hel : LONG_PRESS_DURATION < now - t <;>
            simp [analyzeTouchGesture, hf, hmv, hel, htd0, hlp0]
          done)
       | (rename_i p t
          by_cases hdr : TAP_DRIFT_THRESHOLD < |p.x - (screenCentroid sl ax ay w h).x| ∨
              TAP_DRIFT_THRESHOLD < |p.y - (screenCentroid sl ax ay w h).y| <;>
          by_cases hel : LONG_PRESS_DURATION < now - t <;>
            simp [analyzeTouchGesture, hf, hmv, hdr, hel, htd0, hlp0]))

set_option maxHeartbeats 1000000 in
/-- Claim C3 (amended): for every frame processed with at least one active
slot, the centroid is mapped through the per-axis linear calibration (raw
range rescaled to screen pixels) and the resulting pointer position is never
clamped: the frame either leaves the shared pointer position unchanged
(jitter-debounced and WaitRelease 1-finger frames) or sets it to exactly the
mapped centroid — outside [0, screen_width) x [0, screen_height) whenever the
raw coordinates lie outside the calibrated range; with two or more fingers it
is always set to the mapped centroid.  (Clamping exists only for relative
mouse motion in `process_device_events`.) -/
theorem C3_centroid_mapping_amended (ts : TouchState) (pos : PhysicalPosition)
    (left : Bool) (w h : Nat) (ax ay : Option AbsInfo) (now : Nat)
    (hf : 1 ≤ fingerCount ts.slots) :
    (analyzeTouchGesture ts pos left w h ax ay now).pos ∈
        [pos, screenCentroid ts.slots ax ay w h] ∧
    (2 ≤ fingerCount ts.slots →
      (analyzeTouchGesture ts pos left w h ax ay now).pos =
        screenCentroid ts.slots ax ay w h) := by
  have hscroll : 2 ≤ fingerCount ts.slots →
      (analyzeTouchGesture ts pos left w h ax ay now).pos =
        screenCentroid ts.slots ax ay w h := by
    intro h2
    simp only [analyzeTouchGesture, h2, if_true]
    repeat' split
    all_goals simp [screenCentroid]
  refine ⟨?_, hscroll⟩
  by_cases h2 : 2 ≤ fingerCount ts.slots
  · simp [hscroll h2]
  · have hfc : fingerCount ts.slots = 1 := by omega
    cases hmode : ts.gesture_mode with
    | None =>
        rcases pos_one_finger_default ts pos left w h ax ay now hfc (Or.inl hmode)
          with h | h <;> simp [h]
    | Pointer =>
        rcases pos_one_finger_default ts pos left w h ax ay now hfc (Or.inr hmode)
          with h | h <;> simp [h]
    | RightDrag =>
        rcases pos_one_finger_rightdrag ts pos left w h ax ay now hfc hmode
          with h | h <;> simp [h]
    | Scroll =>
        simp [pos_one_finger_waitrelease ts pos left w h ax ay now hfc (Or.inl hmode)]
    | WaitRelease =>
        simp [pos_one_finger_waitrelease ts pos left w h ax ay now hfc (Or.inr hmode)]

/-- Claim C3 (amended), witness at a concrete two-finger input. -/
theorem C3_centroid_mapping_amended_witness :
    1 ≤ fingerCount twoFingerState.slots ∧
    ((analyzeTouchGesture twoFingerState ⟨3, 4⟩ false 800 480 (some ⟨0, 4095⟩)
          (some ⟨0, 4095⟩) 5).pos ∈
        [(⟨3, 4⟩ : PhysicalPosition),
          screenCentroid twoFingerState.slots (some ⟨0, 4095⟩) (some ⟨0, 4095⟩) 800 480] ∧
    (2 ≤ fingerCount twoFingerState.slots →
      (analyzeTouchGesture twoFingerState ⟨3, 4⟩ false 800 480 (some ⟨0, 4095⟩)
          (some ⟨0, 4095⟩) 5).pos =
        screenCentroid twoFingerState.slots (some ⟨0, 4095⟩) (some ⟨0, 4095⟩) 800 480)) :=
  ⟨by decide,
    C3_centroid_mapping_amended twoFingerState ⟨3, 4⟩ false 800 480 (some ⟨0, 4095⟩)
      (some ⟨0, 4095⟩) 5 (by decide)⟩

/-- Claim C4: after `finish_frame_protocol_a`, every slot at an index at or
after the cursor position at frame-end is inactive, and the cursor is 0. -/
theorem C4_protocol_a_frame_end (ts : TouchState) (i : Fin 10)
    (h : ts.current_slot ≤ i.val) :
    ((ts.finishFrameProtocolA).slots i).active = false ∧
      (ts.finishFrameProtocolA).current_slot = 0 := by
  constructor
  · simp [TouchState.finishFrameProtocolA, h]
  · rfl

/-- Claim C4, witness at a concrete input. -/
theorem C4_protocol_a_frame_end_witness :
    (((TouchState.new.processAxis .ABS_X 5 false).finishFrameProtocolA).slots 0).active =
        false ∧
      ((TouchState.new.processAxis .ABS_X 5 false).finishFrameProtocolA).current_slot = 0 :=
  C4_protocol_a_frame_end _ 0 (by decide)

/-- Claim C7: `current_slot < MAX_SLOTS` holds in the initial state and is
preserved by `process_axis`, `sync_mt_report` and `finish_frame_protocol_a`;
in particular an `ABS_MT_SLOT` event whose value is out of range (after the
`as usize` cast) leaves the state completely unchanged. -/
theorem C7_slot_cursor_invariant :
    TouchState.new.current_slot < MAX_SLOTS ∧
    (∀ (ts : TouchState) (code : AbsAxisCode) (v : Int) (b : Bool),
      ts.current_slot < MAX_SLOTS → (ts.processAxis code v b).current_slot < MAX_SLOTS) ∧
    (∀ ts : TouchState,
      ts.current_slot < MAX_SLOTS → (ts.syncMtReport).current_slot < MAX_SLOTS) ∧
    (∀ ts : TouchState, (ts.finishFrameProtocolA).current_slot < MAX_SLOTS) ∧
    (∀ (ts : TouchState) (v : Int) (b : Bool),
      MAX_SLOTS ≤ i32AsUsize v → ts.processAxis .ABS_MT_SLOT v b = ts) := by
  refine ⟨by decide, ?_, ?_, ?_, ?_⟩
  · intro ts code v b hts
    cases code <;>
      simp only [TouchState.processAxis, TouchState.setSlot] <;>
      (repeat' split) <;>
      simp_all [MAX_SLOTS]
  · intro ts hts
    simp only [TouchState.syncMtReport, MAX_SLOTS] at hts ⊢
    split <;> omega
  · intro ts
    simp [TouchState.finishFrameProtocolA, MAX_SLOTS]
  · intro ts v b hv
    simp [TouchState.processAxis, Nat.not_lt.mpr hv]

/-- Claim C7, witness at concrete inputs. -/
theorem C7_slot_cursor_invariant_witness :
    (TouchState.new.processAxis .ABS_MT_SLOT 3 true).current_slot < MAX_SLOTS ∧
      TouchState.new.processAxis .ABS_MT_SLOT 12 true = TouchState.new :=
  ⟨C7_slot_cursor_invariant.2.1 TouchState.new .ABS_MT_SLOT 3 true (by decide),
    C7_slot_cursor_invariant.2.2.2.2 TouchState.new 12 true (by decide)⟩

set_option maxHeartbeats 2000000 in
/-- Claim C5: in every frame that `analyze_touch_gesture` processes with at
least two active fingers while the left button is logically pressed, the
emitted sequence starts with `PointerReleased(Left)` — hence the release
precedes any `PointerScrolled` of that frame; moreover the frame leaves the
left button logically released and never emits a `PointerPressed`, so no later
scroll frame can run with the left button still pressed. -/
theorem C5_scroll_release_order (ts : TouchState) (pos : PhysicalPosition) (left : Bool)
    (w h : Nat) (ax ay : Option AbsInfo) (now : Nat)
    (hf : 2 ≤ fingerCount ts.slots) :
    (left = true →
      ∃ tl, (analyzeTouchGesture ts pos left w h ax ay now).events =
        .PointerReleased pos .Left :: tl) ∧
    (analyzeTouchGesture ts pos left w h ax ay now).left = false ∧
    (∀ p b, WindowEvent.PointerPressed p b ∉
      (analyzeTouchGesture ts pos left w h ax ay now).events) := by
  have hfe : (2 ≤ fingerCount ts.slots) = True := eq_true hf
  refine ⟨?_, ?_, ?_⟩
  · intro hl
    simp only [analyzeTouchGesture, hfe, if_true, hl, List.singleton_append]
    repeat' split
    all_goals exact ⟨_, rfl⟩
  · simp only [analyzeTouchGesture, hfe, if_true]
    cases left <;> (repeat' split) <;> simp_all
  · intro p b
    simp only [analyzeTouchGesture, hfe, if_true]
    cases left <;> (repeat' split) <;> simp_all

/-- Claim C5, witness at a concrete two-finger input. -/
theorem C5_scroll_release_order_witness :
    2 ≤ fingerCount twoFingerState.slots ∧
    ((true = true →
      ∃ tl, (analyzeTouchGesture twoFingerState ⟨1, 2⟩ true 800 480 none none 0).events =
        .PointerReleased ⟨1, 2⟩ .Left :: tl) ∧
    (analyzeTouchGesture twoFingerState ⟨1, 2⟩ true 800 480 none none 0).left = false ∧
    (∀ p b, WindowEvent.PointerPressed p b ∉
      (analyzeTouchGesture twoFingerState ⟨1, 2⟩ true 800 480 none none 0).events)) :=
  ⟨by decide,
    C5_scroll_release_order twoFingerState ⟨1, 2⟩ true 800 480 none none 0 (by decide)⟩

/-- Claim C8: with calibration minimum 0 and maximum 4095 and screen width
800, the coordinate-mapping function applied to raw x = 2048 yields a mapped x
within 1 of 400 (in fact exactly 400). -/
theorem C8_calibration_midpoint :
    |mapCoord 2048 (some ⟨0, 4095⟩) 800 - 400| ≤ 1 := by
  decide

/-- First frame of a tap: one finger lands while no gesture is running.  The
recognizer starts a Pointer gesture at this frame's time, presses Left exactly
once, releases nothing, and touches no Right button. -/
theorem tap_press_frame (ts : TouchState) (pos : PhysicalPosition)
    (w h : Nat) (ax ay : Option AbsInfo) (now : Nat)
    (hmode : ts.gesture_mode = .None) (hstart : ts.gesture_start_time = none)
    (hf : fingerCount ts.slots = 1) :
    (analyzeTouchGesture ts pos false w h ax ay now).state.gesture_mode = .Pointer ∧
    (analyzeTouchGesture ts pos false w h ax ay now).state.gesture_start_time = some now ∧
    (analyzeTouchGesture ts pos false w h ax ay now).left = true ∧
    (analyzeTouchGesture ts pos false w h ax ay now).events.countP isPressedLeft = 1 ∧
    (analyzeTouchGesture ts pos false w h ax ay now).events.countP isReleasedLeft = 0 ∧
    (analyzeTouchGesture ts pos false w h ax ay now).events.countP isRightButton = 0 := by
  cases hmv : movedSince ts.last_reported_pos (screenCentroid ts.slots ax ay w h) <;>
    simp [analyzeTouchGesture, hmode, hstart, hf, hmv, apply_ite, TAP_DRIFT_THRESHOLD,
      LONG_PRESS_DURATION, List.countP_cons, List.countP_append, isPressedLeft,
      isReleasedLeft, isRightButton]

/-- Middle frame of a tap: the finger is still down, the Pointer gesture is
running, and the long-press deadline has not passed.  The recognizer stays in
Pointer mode with the same start time, keeps Left pressed, and emits at most a
move — no press, release or Right-button event. -/
theorem tap_mid_frame (ts : TouchState) (pos : PhysicalPosition)
    (w h : Nat) (ax ay : Option AbsInfo) (now t0 : Nat)
    (hmode : ts.gesture_mode = .Pointer) (hstart : ts.gesture_start_time = some t0)
    (hf : fingerCount ts.slots = 1) (htime : now ≤ t0 + LONG_PRESS_DURATION) :
    (analyzeTouchGesture ts pos true w h ax ay now).state.gesture_mode = .Pointer ∧
    (analyzeTouchGesture ts pos true w h ax ay now).state.gesture_start_time = some t0 ∧
    (analyzeTouchGesture ts pos true w h ax ay now).left = true ∧
    (analyzeTouchGesture ts pos true w h ax ay now).events.countP isPressedLeft = 0 ∧
    (analyzeTouchGesture ts pos true w h ax ay now).events.countP isReleasedLeft = 0 ∧
    (analyzeTouchGesture ts pos true w h ax ay now).events.countP isRightButton = 0 := by
  have hnl : ¬(LONG_PRESS_DURATION < now - t0) := by
    simp only [LONG_PRESS_DURATION] at htime ⊢
    omega
  cases hmv : movedSince ts.last_reported_pos (screenCentroid ts.slots ax ay w h) <;>
  cases hinv : ts.long_press_invalidated <;>
  cases hic : ts.initial_centroid <;>
    simp [analyzeTouchGesture, hmode, hstart, hf, hmv, hinv, hic, hnl, apply_ite,
      List.countP_cons, List.countP_append, isPressedLeft, isReleasedLeft, isRightButton]

/-- Last frame of a tap: the finger lifts out of a Pointer gesture with Left
pressed.  The recognizer emits exactly `PointerReleased(Left)` and clears the
logical left-pressed flag. -/
theorem tap_lift_frame (ts : TouchState) (pos : PhysicalPosition)
    (w h : Nat) (ax ay : Option AbsInfo) (now : Nat)
    (hmode : ts.gesture_mode = .Pointer) (hf : fingerCount ts.slots = 0) :
    (analyzeTouchGesture ts pos true w h ax ay now).events =
        [.PointerReleased pos .Left] ∧
    (analyzeTouchGesture ts pos true w h ax ay now).left = false := by
  simp [analyzeTouchGesture, hmode, hf]

/-- Folding the recognizer over tap middle frames preserves the Pointer mode,
the start time and the pressed left button, and adds no press, release or
Right-button event. -/
theorem tap_mids_fold (w h : Nat) (ax ay : Option AbsInfo) (t0 : Nat) :
    ∀ (mids : List GestureFrame) (ts : TouchState) (pos : PhysicalPosition)
      (evs : List WindowEvent),
      ts.gesture_mode = .Pointer → ts.gesture_start_time = some t0 →
      (∀ f ∈ mids, fingerCount f.slots = 1) →
      (∀ f ∈ mids, f.now ≤ t0 + LONG_PRESS_DURATION) →
      (mids.foldl (gestureStep w h ax ay) (ts, pos, true, evs)).1.gesture_mode =
          .Pointer ∧
      (mids.foldl (gestureStep w h ax ay) (ts, pos, true, evs)).1.gesture_start_time =
          some t0 ∧
      (mids.foldl (gestureStep w h ax ay) (ts, pos, true, evs)).2.2.1 = true ∧
      (mids.foldl (gestureStep w h ax ay) (ts, pos, true, evs)).2.2.2.countP isPressedLeft =
          evs.countP isPressedLeft ∧
      (mids.foldl (gestureStep w h ax ay) (ts, pos, true, evs)).2.2.2.countP isReleasedLeft =
          evs.countP isReleasedLeft ∧
      (mids.foldl (gestureStep w h ax ay) (ts, pos, true, evs)).2.2.2.countP isRightButton =
          evs.countP isRightButton := by
  intro mids
  induction mids with
  | nil =>
      intro ts pos evs hmode hstart _ _
      exact ⟨hmode, hstart, rfl, rfl, rfl, rfl⟩
  | cons f t ih =>
      intro ts pos evs hmode hstart hfloat htime
      have hstep := tap_mid_frame { ts with slots := f.slots } pos w h ax ay f.now t0
        hmode hstart (hfloat f (List.mem_cons_self f t))
        (htime f (List.mem_cons_self f t))
      obtain ⟨hm, hs, hl, hp, hr, hb⟩ := hstep
      simp only [List.foldl_cons, gestureStep, hl]
      have := ih (analyzeTouchGesture { ts with slots := f.slots } pos true w h ax ay
          f.now).state
        (analyzeTouchGesture { ts with slots := f.slots } pos true w h ax ay f.now).pos
        (evs ++ (analyzeTouchGesture { ts with slots := f.slots } pos true w h ax ay
          f.now).events)
        hm hs (fun g hg => hfloat g (List.mem_cons_of_mem f hg))
        (fun g hg => htime g (List.mem_cons_of_mem f hg))
      simpa [List.countP_append, hp, hr, hb] using this

/-- Claim C6: a tap — one finger lands out of the idle state, stays within the
20px drift bound of the initial centroid, and fully lifts within the 600ms
long-press deadline — produces exactly one `PointerPressed(Left)`, exactly one
`PointerReleased(Left)`, and no Right-button event. -/
theorem C6_tap_gesture (w h : Nat) (ax ay : Option AbsInfo) (ts : TouchState)
    (pos : PhysicalPosition) (f0 fend : GestureFrame) (mids : List GestureFrame)
    (hmode : ts.gesture_mode = .None) (hstart : ts.gesture_start_time = none)
    (hf0 : fingerCount f0.slots = 1)
    (hmids : ∀ f ∈ mids, fingerCount f.slots = 1)
    (hend : fingerCount fend.slots = 0)
    (htime : ∀ f ∈ mids, f.now ≤ f0.now + LONG_PRESS_DURATION)
    (_hdrift : ∀ f ∈ mids,
      |(screenCentroid f0.slots ax ay w h).x - (screenCentroid f.slots ax ay w h).x| ≤
          TAP_DRIFT_THRESHOLD ∧
        |(screenCentroid f0.slots ax ay w h).y - (screenCentroid f.slots ax ay w h).y| ≤
          TAP_DRIFT_THRESHOLD) :
    (runGesture w h ax ay ts pos false (f0 :: mids ++ [fend])).2.2.2.countP
        isPressedLeft = 1 ∧
    (runGesture w h ax ay ts pos false (f0 :: mids ++ [fend])).2.2.2.countP
        isReleasedLeft = 1 ∧
    (runGesture w h ax ay ts pos false (f0 :: mids ++ [fend])).2.2.2.countP
        isRightButton = 0 := by
  obtain ⟨h0m, h0s, h0l, h0p, h0r, h0b⟩ :=
    tap_press_frame { ts with slots := f0.slots } pos w h ax ay f0.now hmode hstart hf0
  simp only [runGesture, List.foldl_cons, List.foldl_append, List.foldl_nil,
    gestureStep, List.nil_append]
  rw [h0l]
  obtain ⟨hXm, hXs, hXl, hXp, hXr, hXb⟩ :=
    tap_mids_fold w h ax ay f0.now mids
      (analyzeTouchGesture { ts with slots := f0.slots } pos false w h ax ay f0.now).state
      (analyzeTouchGesture { ts with slots := f0.slots } pos false w h ax ay f0.now).pos
      (analyzeTouchGesture { ts with slots := f0.slots } pos false w h ax ay f0.now).events
      h0m h0s hmids htime
  rw [hXl]
  obtain ⟨hFe, hFl⟩ :=
    tap_lift_frame
      { (mids.foldl (gestureStep w h ax ay)
          ((analyzeTouchGesture { ts with slots := f0.slots } pos false w h ax ay
            f0.now).state,
           (analyzeTouchGesture { ts with slots := f0.slots } pos false w h ax ay
            f0.now).pos,
           true,
           (analyzeTouchGesture { ts with slots := f0.slots } pos false w h ax ay
            f0.now).events)).1 with slots := fend.slots }
      (mids.foldl (gestureStep w h ax ay)
          ((analyzeTouchGesture { ts with slots := f0.slots } pos false w h ax ay
            f0.now).state,
           (analyzeTouchGesture { ts with slots := f0.slots } pos false w h ax ay
            f0.now).pos,
           true,
           (analyzeTouchGesture { ts with slots := f0.slots } pos false w h ax ay
            f0.now).events)).2.1
      w h ax ay fend.now hXm hend
  rw [hFe]
  simp [List.countP_append, List.countP_cons, hXp, hXr, hXb, h0p, h0r, h0b,
    isPressedLeft, isReleasedLeft, isRightButton]

/-- Claim C6, witness: a concrete three-frame tap (land at t=0, hold at t=100,
lift at t=200) on an uncalibrated device. -/
theorem C6_tap_gesture_witness :
    (runGesture 800 480 none none TouchState.new ⟨0, 0⟩ false
        (⟨tapSlots, 0⟩ :: [⟨tapSlots, 100⟩] ++ [⟨emptySlots, 200⟩])).2.2.2.countP
        isPressedLeft = 1 ∧
    (runGesture 800 480 none none TouchState.new ⟨0, 0⟩ false
        (⟨tapSlots, 0⟩ :: [⟨tapSlots, 100⟩] ++ [⟨emptySlots, 200⟩])).2.2.2.countP
        isReleasedLeft = 1 ∧
    (runGesture 800 480 none none TouchState.new ⟨0, 0⟩ false
        (⟨tapSlots, 0⟩ :: [⟨tapSlots, 100⟩] ++ [⟨emptySlots, 200⟩])).2.2.2.countP
        isRightButton = 0 :=
  C6_tap_gesture 800 480 none none TouchState.new ⟨0, 0⟩ ⟨tapSlots, 0⟩
    ⟨emptySlots, 200⟩ [⟨tapSlots, 100⟩] (by decide) (by decide) (by decide)
    (by decide) (by decide) (by decide) (by decide)

/-- Event processing never changes which x-calibration a device reports. -/
theorem pdeStep_abs_x_info (now : Nat) (acc : PdeAcc) (ev : EventSum) :
    (pdeStep now acc ev).dev.abs_x_info = acc.dev.abs_x_info := by
  cases ev with
  | absoluteAxis c v => rfl
  | relativeAxis c v => cases c <;> rfl
  | key k v =>
      simp only [pdeStep]
      cases mapKeyToPointerButton k <;> (repeat' split) <;> rfl
  | synchronization c v =>
      cases c <;> simp only [pdeStep] <;> (repeat' split) <;> rfl
  | otherEvent => rfl

/-- The fold of `pdeStep` preserves the device's x-calibration. -/
theorem foldl_pdeStep_abs_x_info (now : Nat) (evs : List EventSum) (acc : PdeAcc) :
    ((evs.foldl (pdeStep now) acc).dev.abs_x_info) = acc.dev.abs_x_info := by
  induction evs generalizing acc with
  | nil => rfl
  | cons e rest ih => rw [List.foldl_cons, ih, pdeStep_abs_x_info]

/-- On a device with x-calibration (a touchscreen), a key event that maps to a
pointer button is a complete no-op of the event loop. -/
theorem pdeStep_button_key_noop (now : Nat) (acc : PdeAcc) (k : KeyCode) (v : Int)
    (btn : PointerEventButton) (h1 : acc.dev.abs_x_info.isSome)
    (h2 : mapKeyToPointerButton k = some btn) :
    pdeStep now acc (.key k v) = acc := by
  have hne : ¬acc.dev.abs_x_info = none := by
    intro hx
    rw [hx] at h1
    simp at h1
  simp [pdeStep, h2, hne]

/-- Claim C10: for a device classified as touchscreen (absolute-X calibration
present), raw button key events (`BTN_LEFT`, `BTN_TOUCH`, `BTN_RIGHT`, ...)
are ignored by `process_device_events` — deleting such an event from the
stream changes nothing — so pointer press/release events for such a device
can only originate from the gesture recognizer run at frame sync. -/
theorem C10_touchscreen_button_noop (gs : GlobalInputState) (dev : ManagedDevice)
    (pre post : List EventSum) (k : KeyCode) (v : Int) (now : Nat)
    (btn : PointerEventButton)
    (h1 : dev.abs_x_info.isSome) (h2 : mapKeyToPointerButton k = some btn) :
    processDeviceEvents gs dev (pre ++ .key k v :: post) now =
      processDeviceEvents gs dev (pre ++ post) now := by
  have hfold :
      (pre ++ EventSum.key k v :: post).foldl (pdeStep now)
        { gs := gs, dev := dev, sync_needed := false, wheel_dx := 0, wheel_dy := 0,
          output := [] } =
      (pre ++ post).foldl (pdeStep now)
        { gs := gs, dev := dev, sync_needed := false, wheel_dx := 0, wheel_dy := 0,
          output := [] } := by
    rw [List.foldl_append, List.foldl_append, List.foldl_cons,
      pdeStep_button_key_noop now _ k v btn (by rw [foldl_pdeStep_abs_x_info]; exact h1) h2]
  simp only [processDeviceEvents, hfold]

/-- Claim C10, witness at a concrete input (a `BTN_LEFT` press on a
touchscreen device). -/
theorem C10_touchscreen_button_noop_witness :
    touchDevice.abs_x_info.isSome = true ∧
      processDeviceEvents initialGlobalState touchDevice
          ([] ++ .key .BTN_LEFT 1 :: [.otherEvent]) 0 =
        processDeviceEvents initialGlobalState touchDevice ([] ++ [.otherEvent]) 0 :=
  ⟨by decide,
    C10_touchscreen_button_noop initialGlobalState touchDevice [] [.otherEvent]
      .BTN_LEFT 1 0 .Left (by decide) (by decide)⟩

/-- Shifting the starting index of the device loop shifts exactly the recorded
removal indices. -/
theorem pollLoop_index_shift (now : Nat) (devs : List (ManagedDevice × ReadResult)) :
    ∀ (gs : GlobalInputState) (i : Nat),
      pollLoop now gs devs (i + 1) =
        ((pollLoop now gs devs i).1, (pollLoop now gs devs i).2.1,
          ((pollLoop now gs devs i).2.2.1).map (· + 1), (pollLoop now gs devs i).2.2.2) := by
  induction devs with
  | nil => intro gs i; rfl
  | cons dr rest ih =>
      intro gs i
      obtain ⟨d, res⟩ := dr
      cases res <;> simp [pollLoop, ih]

/-- Removing (in reverse order) only indices that lie past the head keeps the
head and removes the shifted indices from the tail. -/
theorem foldl_eraseIdx_map_succ {α : Type} (l : List Nat) (d : α) (ds : List α) :
    (l.map (· + 1)).foldl (fun a i => a.eraseIdx i) (d :: ds) =
      d :: l.foldl (fun a i => a.eraseIdx i) ds := by
  induction l generalizing ds with
  | nil => rfl
  | cons i t ih => simp [List.foldl_cons, List.eraseIdx_cons_succ, ih]

/-- `applyRemovals` on shifted indices keeps the head device. -/
theorem applyRemovals_map_succ (idxs : List Nat) (d : ManagedDevice)
    (ds : List ManagedDevice) :
    applyRemovals (d :: ds) (idxs.map (· + 1)) = d :: applyRemovals ds idxs := by
  unfold applyRemovals
  rw [show (idxs.map (· + 1)).reverse = idxs.reverse.map (· + 1) by
    simp [List.map_reverse]]
  exact foldl_eraseIdx_map_succ _ _ _

/-- `applyRemovals` with index 0 recorded first (hence applied last) drops the
head device and applies the remaining shifted indices to the tail. -/
theorem applyRemovals_zero_cons (idxs : List Nat) (d : ManagedDevice)
    (ds : List ManagedDevice) :
    applyRemovals (d :: ds) (0 :: idxs.map (· + 1)) = applyRemovals ds idxs := by
  unfold applyRemovals
  rw [List.reverse_cons, List.foldl_append,
    show (idxs.map (· + 1)).reverse = idxs.reverse.map (· + 1) by simp [List.map_reverse],
    foldl_eraseIdx_map_succ]
  rfl

/-- Claim C9: in a `poll()` cycle, a device whose read would block yields no
events and is retained with its state untouched, while the rest of the cycle
is unaffected; a device with any other read error yields no events, is removed
— the removal being applied only after the whole loop — and the remaining
devices are still processed exactly as they would have been without it. -/
theorem C9_poll_error_handling (now : Nat) (gs : GlobalInputState)
    (d : ManagedDevice) (rest : List (ManagedDevice × ReadResult)) :
    (pollModel now gs ((d, .wouldBlock) :: rest) =
      ((pollModel now gs rest).1, d :: (pollModel now gs rest).2.1,
        (pollModel now gs rest).2.2)) ∧
    (pollModel now gs ((d, .err) :: rest) = pollModel now gs rest) := by
  have hshift := pollLoop_index_shift now rest gs 0
  norm_num at hshift
  constructor
  · simp [pollModel, pollLoop, hshift, applyRemovals_map_succ]
  · simp [pollModel, pollLoop, hshift, applyRemovals_zero_cons]

end LinuxFB
